import Mathlib

/-!
# Infrastructure Reconnaissance & Attack-Surface Risk-Scoring Engine

A shallow embedding of the reconnaissance endpoint of the phishing-awareness
application (`app/app/page.tsx`): domain normalization, the WHOIS response
parser, the DNS/WHOIS/HTTP/IP aggregator (`POST /api/infrastructure`), the
risk scoring engine (`calculateInfrastructureRisks`) and the attack-surface
extractor (`extractTop5AttackSurfaces`).

External effects (DNS queries, the WHOIS TCP socket, the HTTP HEAD probe,
the IP-reputation HTTP call, and the system clock / `Date` parser) are
modelled as inputs: each adapter's *outcome* is a field of an environment
record, with `Option` encoding failure exactly where the source catches an
exception and substitutes an empty value. The handler itself is a pure
total function of the request body and that environment.

JavaScript-specific semantics that matter here are modelled explicitly:
string truthiness (`""` is falsy) via `truthy`, first-colon splitting,
case-sensitive regex prefixes, `Math.floor` on a real quotient as `Int.fdiv`,
and the ES2019-stable `Array.prototype.sort` as a stable insertion sort.
-/

/-- Is `p` a prefix of `l`? (char-list version of `String.startsWith`). -/
def listPre : List Char → List Char → Bool
  | [], _ => true
  | _ :: _, [] => false
  | p :: ps, c :: cs => p == c && listPre ps cs

/-- Does the pattern `p` occur as a contiguous sublist of `l`?
Models JavaScript `String.prototype.includes`. -/
def listSub : List Char → List Char → Bool
  | p, [] => p.isEmpty
  | p, c :: cs => listPre p (c :: cs) || listSub p cs

/-- `containsStr s pat` models JS `s.includes(pat)`. -/
def containsStr (s pat : String) : Bool :=
  listSub pat.data s.data

/-- `startsStr s p` models JS `s.startsWith(p)` (and anchored regexes). -/
def startsStr (s p : String) : Bool :=
  listPre p.data s.data

/-- JS string truthiness on a possibly-absent string field:
`undefined` and `""` are falsy, every other string is truthy. -/
def truthy : Option String → Option String
  | some "" => none
  | o => o

/-- ASCII lower-casing of one character (the fragment of JS
`String.prototype.toLowerCase` exercised by this program). -/
def lowerChar (c : Char) : Char :=
  if 65 ≤ c.toNat ∧ c.toNat ≤ 90 then Char.ofNat (c.toNat + 32) else c

/-- `lowerStr` models JS `s.toLowerCase()` on ASCII data. -/
def lowerStr (s : String) : String :=
  ⟨s.data.map lowerChar⟩

/-- The whitespace class trimmed by JS `String.prototype.trim`
(ASCII fragment). -/
def isWs (c : Char) : Bool :=
  c == ' ' || c == '\t' || c == '\r' || c == '\n'

/-- `trimStr` models JS `s.trim()`. -/
def trimStr (s : String) : String :=
  ⟨((s.data.dropWhile isWs).reverse.dropWhile isWs).reverse⟩

/-- Split a character list at every occurrence of `sep`, keeping empty
segments, exactly like JS `String.prototype.split` with a one-character
separator (`"".split(sep)` gives `[""]`). -/
def splitOnChar (sep : Char) : List Char → List (List Char)
  | [] => [[]]
  | c :: cs =>
    let r := splitOnChar sep cs
    if c = sep then [] :: r
    else
      match r with
      | [] => [[c]]
      | x :: xs => (c :: x) :: xs

/-- Split a character list at the first `':'`, returning the part before
and the part after.  `none` when there is no colon: models
`indexOf(":")` returning `-1` followed by the two `substring` calls. -/
def splitFirstColon : List Char → Option (List Char × List Char)
  | [] => none
  | c :: cs =>
    if c = ':' then some ([], cs)
    else
      match splitFirstColon cs with
      | none => none
      | some (k, v) => some (c :: k, v)

/-- Domain normalization from the `POST` handler:

```js
const cleanDomain = domain
  .replace(/^https?:\/\//, "")   // case-sensitive, anchored
  .replace(/^www\./, "")         // case-sensitive, anchored
  .split("/")[0]
  .toLowerCase();
```
-/
def normalizeDomain (domain : String) : String :=
  let l := domain.data
  let l1 := if listPre "https://".data l then l.drop 8
            else if listPre "http://".data l then l.drop 7
            else l
  let l2 := if listPre "www.".data l1 then l1.drop 4 else l1
  lowerStr ⟨l2.takeWhile (fun c => c ≠ '/')⟩

/-! ## WHOIS response parser (`parseWhoisResponse`)

The parser's result object: every field it can assign, `none` / `[]` when
never assigned. `status` and `nameservers` are accumulating lists (the
source pushes onto them); every other field is a last-write-wins string.
The source's `result: any` holds exactly these keys. -/

structure DomainRegistration where
  domain_name : Option String := none
  registry_domain_id : Option String := none
  registrar_whois_server : Option String := none
  registrar_url : Option String := none
  registrar : Option String := none
  registrar_abuse_email : Option String := none
  registrar_abuse_phone : Option String := none
  reseller_name : Option String := none
  creation_date : Option String := none
  expiration_date : Option String := none
  updated_date : Option String := none
  last_modified : Option String := none
  registrant_name : Option String := none
  registrant_id : Option String := none
  registrant_organization : Option String := none
  registrant_country : Option String := none
  registrant_email : Option String := none
  registrant_phone : Option String := none
  admin_name : Option String := none
  admin_id : Option String := none
  admin_email : Option String := none
  tech_name : Option String := none
  tech_id : Option String := none
  tech_email : Option String := none
  billing_name : Option String := none
  billing_id : Option String := none
  nameservers : List String := []
  status : List String := []
  status_reason : Option String := none
  dnssec : Option String := none
  eligibility_type : Option String := none
  deriving DecidableEq, Repr

/-- The heuristic key-routing block of `parseWhoisResponse`.  The source is
a sequence of independent `if (key.includes(...)) result.x = value` checks;
since each check assigns a distinct field and no condition reads `result`,
the sequence is equivalent to this simultaneous record update. -/
def whoisRoute (key value : String) (r : DomainRegistration) : DomainRegistration :=
  { domain_name := if containsStr key "domain name" then some value else r.domain_name
    registry_domain_id := if containsStr key "registry domain id" then some value else r.registry_domain_id
    registrar_whois_server := if containsStr key "registrar whois server" then some value else r.registrar_whois_server
    registrar_url := if containsStr key "registrar url" || key = "registrar url" then some value else r.registrar_url
    registrar := if key = "registrar" || (containsStr key "registrar" && containsStr key "name") then some value else r.registrar
    registrar_abuse_email := if containsStr key "registrar abuse contact email" then some value else r.registrar_abuse_email
    registrar_abuse_phone := if containsStr key "registrar abuse contact phone" then some value else r.registrar_abuse_phone
    reseller_name := if containsStr key "reseller" then some value else r.reseller_name
    creation_date := if containsStr key "creation date" || containsStr key "created" then some value else r.creation_date
    expiration_date := if containsStr key "expir" && (containsStr key "date" || containsStr key "expir") then some value else r.expiration_date
    updated_date := if containsStr key "updated" && containsStr key "date" then some value else r.updated_date
    last_modified := if containsStr key "last modified" then some value else r.last_modified
    registrant_name := if containsStr key "registrant" && containsStr key "name" then some value else r.registrant_name
    registrant_id := if containsStr key "registrant" && containsStr key "id" then some value else r.registrant_id
    registrant_organization := if containsStr key "registrant" && containsStr key "organization" then some value else r.registrant_organization
    registrant_country := if containsStr key "registrant" && containsStr key "country" then some value else r.registrant_country
    registrant_email := if containsStr key "registrant" && containsStr key "email" then some value else r.registrant_email
    registrant_phone := if containsStr key "registrant" && containsStr key "phone" then some value else r.registrant_phone
    admin_name := if containsStr key "admin" && containsStr key "name" then some value else r.admin_name
    admin_id := if containsStr key "admin" && containsStr key "id" then some value else r.admin_id
    admin_email := if containsStr key "admin" && containsStr key "email" then some value else r.admin_email
    tech_name := if containsStr key "tech" && containsStr key "name" then some value else r.tech_name
    tech_id := if containsStr key "tech" && containsStr key "id" then some value else r.tech_id
    tech_email := if containsStr key "tech" && containsStr key "email" then some value else r.tech_email
    billing_name := if containsStr key "billing" && containsStr key "name" then some value else r.billing_name
    billing_id := if containsStr key "billing" && containsStr key "id" then some value else r.billing_id
    nameservers := if containsStr key "name server" || containsStr key "nameserver" then r.nameservers ++ [value] else r.nameservers
    status := if containsStr key "status" then r.status ++ [value] else r.status
    status_reason := if containsStr key "status reason" then some value else r.status_reason
    dnssec := if containsStr key "dnssec" then some value else r.dnssec
    eligibility_type := if containsStr key "eligibility type" then some value else r.eligibility_type }

/-- Does `key` fire at least one routing rule of `whoisRoute`?  The exact
disjunction of the source's conditions, in source order. -/
def whoisAnyMatch (key : String) : Bool :=
  containsStr key "domain name" ||
  containsStr key "registry domain id" ||
  containsStr key "registrar whois server" ||
  (containsStr key "registrar url" || key = "registrar url") ||
  (key = "registrar" || (containsStr key "registrar" && containsStr key "name")) ||
  containsStr key "registrar abuse contact email" ||
  containsStr key "registrar abuse contact phone" ||
  containsStr key "reseller" ||
  (containsStr key "creation date" || containsStr key "created") ||
  (containsStr key "expir" && (containsStr key "date" || containsStr key "expir")) ||
  (containsStr key "updated" && containsStr key "date") ||
  containsStr key "last modified" ||
  (containsStr key "registrant" && containsStr key "name") ||
  (containsStr key "registrant" && containsStr key "id") ||
  (containsStr key "registrant" && containsStr key "organization") ||
  (containsStr key "registrant" && containsStr key "country") ||
  (containsStr key "registrant" && containsStr key "email") ||
  (containsStr key "registrant" && containsStr key "phone") ||
  (containsStr key "admin" && containsStr key "name") ||
  (containsStr key "admin" && containsStr key "id") ||
  (containsStr key "admin" && containsStr key "email") ||
  (containsStr key "tech" && containsStr key "name") ||
  (containsStr key "tech" && containsStr key "id") ||
  (containsStr key "tech" && containsStr key "email") ||
  (containsStr key "billing" && containsStr key "name") ||
  (containsStr key "billing" && containsStr key "id") ||
  (containsStr key "name server" || containsStr key "nameserver") ||
  containsStr key "status" ||
  containsStr key "status reason" ||
  containsStr key "dnssec" ||
  containsStr key "eligibility type"

/-- One iteration of the parser's line loop: trim, skip blank / `%` / `>`
lines, split on the first colon (skip when there is none), lowercase the
key, trim the value, skip empty values, then route. -/
def whoisLine (r : DomainRegistration) (line : String) : DomainRegistration :=
  let t := trimStr line
  if t = "" || startsStr t "%" || startsStr t ">" then r
  else
    match splitFirstColon t.data with
    | none => r
    | some (k, v) =>
      let key := lowerStr (trimStr ⟨k⟩)
      let value := trimStr ⟨v⟩
      if value = "" then r else whoisRoute key value r

/-- `parseWhoisResponse`: split the response on newlines and fold the line
parser over it (the early `if (!whoisText) return result` is the `""` case). -/
def parseWhoisResponse (whoisText : String) : DomainRegistration :=
  if whoisText = "" then {}
  else ((splitOnChar '\n' whoisText.data).map (fun l => (⟨l⟩ : String))).foldl whoisLine {}

example : (parseWhoisResponse "Registrar: GoDaddy\n% comment\nfoo\nRegistrant Email: a@b.c\nDomain Status: ok").registrar = some "GoDaddy" := by decide
example : (parseWhoisResponse "Registrar: GoDaddy\n% comment\nfoo\nRegistrant Email: a@b.c\nDomain Status: ok").registrant_email = some "a@b.c" := by decide
example : (parseWhoisResponse "Registrar: GoDaddy\n% comment\nfoo\nRegistrant Email: a@b.c\nDomain Status: ok").status = ["ok"] := by decide

/-! ## Unified data model (`InfrastructureData` and friends) -/

structure MxRecord where
  priority : Int
  exchange : String
  deriving DecidableEq, Repr

structure MxDetail where
  priority : Int
  exchange : String
  provider : String
  deriving DecidableEq, Repr

/-- The `dns` section.  The extra `dnssec` field is read by the scoring code
through the dynamically-typed `data.dns.dnssec` access even though the
aggregator never assigns it (it stays `none` end-to-end). -/
structure DnsSection where
  nameservers : Option (List String) := none
  a_records : Option (List String) := none
  aaaa_records : Option (List String) := none
  mx_records : Option (List MxRecord) := none
  txt_records : Option (List String) := none
  soa_record : Option String := none
  ns_provider : Option String := none
  dnssec : Option String := none
  deriving DecidableEq, Repr

/-- `ip_whois`: fields copied from the IP-reputation response only when
present; the JS truthiness checks on `is_vpn` / `is_proxy` make an absent
flag indistinguishable from `false`. -/
structure IpWhois where
  asn : Option String := none
  organization : Option String := none
  isp : Option String := none
  country : Option String := none
  country_code : Option String := none
  continent : Option String := none
  city : Option String := none
  region : Option String := none
  latitude : Option Rat := none
  longitude : Option Rat := none
  is_vpn : Bool := false
  is_proxy : Bool := false
  deriving DecidableEq, Repr

structure HostingSection where
  ip_address : Option String := none
  ipv6_addresses : Option (List String) := none
  ip_whois : Option IpWhois := none
  deriving DecidableEq, Repr

structure WebServer where
  server_header : Option String := none
  platform : Option String := none
  cdn_provider : Option String := none
  deriving DecidableEq, Repr

structure EmailSection where
  mx_provider : Option String := none
  spf_record : Option String := none
  dmarc_record : Option String := none
  mx_details : Option (List MxDetail) := none
  deriving DecidableEq, Repr

structure Metadata where
  data_sources : List String
  collection_method : String
  notes : List String
  warnings : List String
  deriving DecidableEq, Repr

structure InfrastructureData where
  domain : String
  timestamp : String
  domain_registration : Option DomainRegistration := none
  dns : Option DnsSection := none
  hosting : Option HostingSection := none
  web_server : Option WebServer := none
  email : Option EmailSection := none
  metadata : Option Metadata := none
  deriving DecidableEq, Repr

inductive Severity where
  | critical
  | high
  | medium
  | low
  | info
  deriving DecidableEq, Repr

structure RiskScore where
  category : String
  score : Int
  severity : Severity
  weight : Rat
  findings : List String
  attackVectors : List String
  deriving DecidableEq, Repr

/-- One ranked attack surface.  The source declares `riskSeverity`,
`riskScore` and `weight` optional but every constructed surface assigns all
three, and the sort comparator's `|| 0` default is then the identity, so
they are modelled total. -/
structure AttackSurface where
  vector : String
  value : String
  description : String
  phishingTactic : String
  riskSeverity : Severity
  riskScore : Int
  weight : Rat
  deriving DecidableEq, Repr

/-! ## Environment: outcomes of the external lookups and of the clock -/

/-- `Date.now()`, `new Date().toISOString()` and `new Date(s).getTime()`.
`parseMs s = none` models an invalid date (`getTime()` returning `NaN`;
every `NaN < k` comparison in the source is false, which is exactly the
no-contribution branch). -/
structure TimeEnv where
  now : Int
  nowIso : String
  parseMs : String → Option Int

/-- Per-record-type DNS query outcomes; `none` is a query that threw.
`soa` carries `JSON.stringify` of the SOA object when the query succeeded;
`txt`/`dmarc` carry the chunked `string[][]` TXT payloads. -/
structure DnsOutcomes where
  ns : Option (List String) := none
  a : Option (List String) := none
  aaaa : Option (List String) := none
  mx : Option (List MxRecord) := none
  txt : Option (List (List String)) := none
  soa : Option String := none
  dmarc : Option (List (List String)) := none

/-- The raw headers of a successful HTTP HEAD probe
(`headers.get(name) || ""`). -/
structure HttpRaw where
  server : String := ""
  powered_by : String := ""
  cf_ray : String := ""

/-- Everything the `POST` handler consumes from the outside world. -/
structure Env where
  time : TimeEnv
  dnsOutcomes : DnsOutcomes
  whoisRaw : Option String := none
  http : Option HttpRaw := none
  ipLookup : String → IpWhois := fun _ => {}

/-- `resolveDNS`: each record type has its own try/catch and a failure
yields an empty list (or `null` for SOA / DMARC) for that type only.
DMARC additionally requires the `v=DMARC1` marker in the joined payload. -/
structure DnsResults where
  nameservers : List String
  a_records : List String
  aaaa_records : List String
  mx_records : List MxRecord
  txt_records : List (List String)
  soa_record : Option String
  dmarc_txt : Option String

def resolveDNS (q : DnsOutcomes) : DnsResults :=
  { nameservers := q.ns.getD []
    a_records := q.a.getD []
    aaaa_records := q.aaaa.getD []
    mx_records := q.mx.getD []
    txt_records := q.txt.getD []
    soa_record := q.soa
    dmarc_txt :=
      match q.dmarc with
      | none => none
      | some ls =>
        if ls.length > 0 then
          let joined := String.join ls.flatten
          if containsStr joined "v=DMARC1" then some joined else none
        else none }

/-- `getHttpHeaders` result object (the `status` field is never read
downstream and is omitted). -/
structure HttpResult where
  server_header : Option String := none
  powered_by : Option String := none
  cdn_provider : Option String := none
  platform : Option String := none

/-- `getHttpHeaders`: classify CDN and platform by substring match on the
lowercased `server` header; any network failure returns the empty object. -/
def getHttpHeaders (h : Option HttpRaw) : HttpResult :=
  match h with
  | none => {}
  | some hr =>
    let lower := lowerStr hr.server
    { server_header := some hr.server
      powered_by := some hr.powered_by
      cdn_provider :=
        if containsStr lower "cloudflare" || hr.cf_ray ≠ "" then some "Cloudflare"
        else if containsStr lower "akamai" then some "Akamai"
        else none
      platform :=
        if containsStr lower "nginx" then some "Nginx"
        else if containsStr lower "apache" then some "Apache"
        else if containsStr lower "iis" then some "Microsoft IIS"
        else none }

/-- `detectEmailProvider`, the MX-exchange classification table. -/
def detectEmailProvider (exchange : String) : String :=
  let lower := lowerStr exchange
  if containsStr lower "google" || containsStr lower "gmail" then "Google Workspace"
  else if containsStr lower "microsoft" || containsStr lower "outlook" then "Microsoft 365"
  else if containsStr lower "zoho" then "Zoho Mail"
  else if containsStr lower "protonmail" then "Proton Mail"
  else if containsStr lower "mailgun" then "Mailgun"
  else if containsStr lower "sendgrid" then "SendGrid"
  else if containsStr lower "fastmail" then "Fastmail"
  else if containsStr lower "aws" || containsStr lower "ses" then "Amazon SES"
  else if containsStr lower "office365" then "Microsoft 365"
  else "Custom/Self-hosted"

/-- `detectNsProvider`, classifying by the first nameserver only. -/
def detectNsProvider (nameservers : List String) : String :=
  match nameservers with
  | [] => "Unknown"
  | n :: _ =>
    let ns := lowerStr n
    if containsStr ns "cloudflare" then "Cloudflare"
    else if containsStr ns "route53" || containsStr ns "awsdns" then "AWS Route 53"
    else if containsStr ns "akamai" then "Akamai"
    else if containsStr ns "google" && containsStr ns "dns" then "Google Cloud DNS"
    else if containsStr ns "azure" then "Azure DNS"
    else "ISP/Registrar Default"

/-- `getWhoisInfo`: a socket/timeout failure (or an empty response, which
is falsy) yields the empty record; otherwise the parsed response. -/
def getWhoisInfo (raw : Option String) : DomainRegistration :=
  match raw with
  | none => {}
  | some s => if s = "" then {} else parseWhoisResponse s

/-- `Object.keys(whoisData).length === 0`: the parser assigns a key exactly
when the corresponding field is `some`/non-empty, so emptiness of the JS
object is emptiness of every field. -/
def DomainRegistration.isEmptyRec (r : DomainRegistration) : Bool :=
  r.domain_name.isNone && r.registry_domain_id.isNone && r.registrar_whois_server.isNone &&
  r.registrar_url.isNone && r.registrar.isNone && r.registrar_abuse_email.isNone &&
  r.registrar_abuse_phone.isNone && r.reseller_name.isNone && r.creation_date.isNone &&
  r.expiration_date.isNone && r.updated_date.isNone && r.last_modified.isNone &&
  r.registrant_name.isNone && r.registrant_id.isNone && r.registrant_organization.isNone &&
  r.registrant_country.isNone && r.registrant_email.isNone && r.registrant_phone.isNone &&
  r.admin_name.isNone && r.admin_id.isNone && r.admin_email.isNone &&
  r.tech_name.isNone && r.tech_id.isNone && r.tech_email.isNone &&
  r.billing_name.isNone && r.billing_id.isNone && r.nameservers.isEmpty &&
  r.status.isEmpty && r.status_reason.isNone && r.dnssec.isNone && r.eligibility_type.isNone

/-! ## Risk scoring engine (`calculateInfrastructureRisks`) -/

/-- The severity thresholds, applied to the raw (pre-clamp) sum. -/
def severityOf (score : Int) : Severity :=
  if score > 70 then .critical
  else if score > 40 then .high
  else if score > 20 then .medium
  else .info

/-- `Math.floor((new Date(s).getTime() - Date.now()) / 86400000)`.
`none` when the date string does not parse (`NaN` in the source, which
fails every comparison). -/
def daysUntilExpiry (E : TimeEnv) (s : String) : Option Int :=
  (E.parseMs s).map (fun t => (t - E.now).fdiv 86400000)

/-- `(Date.now() - new Date(s).getTime()) / (1000*60*60*24*365) < 1`,
the "domain is less than one year old" test (false on `NaN`). -/
def isYoungDomain (E : TimeEnv) (s : String) : Bool :=
  match E.parseMs s with
  | some t => E.now - t < 31536000000
  | none => false

/-- Domain Registration risks. -/
def regRisk (E : TimeEnv) (reg : DomainRegistration) : RiskScore :=
  let expiry : Int × List String × List String :=
    match truthy reg.expiration_date with
    | some ed =>
      match daysUntilExpiry E ed with
      | some days =>
        if days < 30 then
          (25, [s!"Domain expires in {days} days - HIGH URGENCY"], ["Domain renewal phishing"])
        else if days < 90 then
          (15, [s!"Domain expires in {days} days"], ["Domain renewal notification"])
        else (0, [], [])
      | none => (0, [], [])
    | none => (0, [], [])
  let age : Int × List String × List String :=
    match truthy reg.creation_date with
    | some cd =>
      if isYoungDomain E cd then
        (20, ["Domain is very new (< 1 year old)"], ["New domain registration phishing"])
      else (0, [], [])
    | none => (0, [], [])
  let rname : Int × List String × List String :=
    match truthy reg.registrant_name with
    | some n => (10, [s!"Registrant publicly listed: {n}"], ["Registrant impersonation"])
    | none => (0, [], [])
  let remail : Int × List String × List String :=
    match truthy reg.registrant_email with
    | some e => (8, [s!"Registrant email exposed: {e}"], ["Email-based social engineering"])
    | none => (0, [], [])
  let rr : Int × List String × List String :=
    match truthy reg.registrar with
    | some r => (5, [s!"Registrar: {r}"], ["Registrar spoofing attacks"])
    | none => (0, [], [])
  let st : Int × List String × List String :=
    if reg.status.length > 0 then
      let problematic := reg.status.filter (fun s => containsStr (lowerStr s) "lock" = false)
      if problematic.length > 0 then
        let joined := String.intercalate ", " problematic
        (15, [s!"Domain status issues: {joined}"], ["Domain hijacking risk"])
      else (0, [], [])
    else (0, [], [])
  let regScore := expiry.1 + age.1 + rname.1 + remail.1 + rr.1 + st.1
  { category := "Domain Registration"
    score := min regScore 100
    severity := severityOf regScore
    weight := (regScore : Rat) / 100
    findings := expiry.2.1 ++ age.2.1 ++ rname.2.1 ++ remail.2.1 ++ rr.2.1 ++ st.2.1
    attackVectors := expiry.2.2 ++ age.2.2 ++ rname.2.2 ++ remail.2.2 ++ rr.2.2 ++ st.2.2 }

/-- DNS Security risks. -/
def dnsRisk (dns : DnsSection) : RiskScore :=
  let prov : Int × List String × List String :=
    match truthy dns.ns_provider with
    | some p =>
      if p = "ISP/Registrar Default" then
        (10, ["Using default/ISP nameservers - less secure"], ["DNS hijacking"])
      else (-5, [s!"Using managed DNS: {p}"], [])
    | none => (0, [], [])
  let dnssec : Int × List String × List String :=
    match truthy dns.dnssec with
    | some d =>
      if d = "unsigned" then
        (20, ["DNSSEC not enabled - vulnerable to DNS spoofing"],
          ["DNS spoofing attacks", "Man-in-the-middle attacks"])
      else (-10, ["DNSSEC enabled"], [])
    | none =>
      (20, ["DNSSEC not enabled - vulnerable to DNS spoofing"],
        ["DNS spoofing attacks", "Man-in-the-middle attacks"])
  let nsRed : Int × List String × List String :=
    match dns.nameservers with
    | some l =>
      if l.length < 2 then
        (15, ["Only 1 nameserver - single point of failure"], ["Single nameserver compromise"])
      else
        let n := l.length
        (0, [s!"{n} nameservers configured"], [])
    | none => (0, [], [])
  let aRec : Int × List String × List String :=
    match dns.a_records with
    | some l =>
      if l.length = 0 then
        (10, ["No A records found - site may be offline/misconfigured"], [])
      else (0, [], [])
    | none => (10, ["No A records found - site may be offline/misconfigured"], [])
  let dnsScore := prov.1 + dnssec.1 + nsRed.1 + aRec.1
  { category := "DNS Security"
    score := min dnsScore 100
    severity := severityOf dnsScore
    weight := (dnsScore : Rat) / 100
    findings := prov.2.1 ++ dnssec.2.1 ++ nsRed.2.1 ++ aRec.2.1
    attackVectors := prov.2.2 ++ dnssec.2.2 ++ nsRed.2.2 ++ aRec.2.2 }

/-- Email Security risks.  Note the strict `===` comparison for the
self-hosted check and the `undefined` interpolation in the else-branch
finding when `mx_provider` is absent. -/
def emailRisk (email : EmailSection) : RiskScore :=
  let spf : Int × List String × List String :=
    match truthy email.spf_record with
    | some _ => (-10, ["SPF record configured"], [])
    | none =>
      (25, ["SPF record NOT configured - email spoofing possible"],
        ["Email spoofing (high risk)", "Registrar spoofing", "Hosting provider phishing"])
  let dmarc : Int × List String × List String :=
    match truthy email.dmarc_record with
    | some _ => (-10, ["DMARC record configured"], [])
    | none => (20, ["DMARC record NOT configured"], ["DMARC bypass phishing"])
  let prov : Int × List String × List String :=
    match email.mx_provider with
    | some p =>
      if p = "Custom/Self-hosted" then
        (15, ["Self-hosted email - higher compromise risk"], ["Internal email system compromise"])
      else (0, [s!"Email provider: {p}"], [])
    | none => (0, ["Email provider: undefined"], [])
  let mxRed : Int × List String × List String :=
    match email.mx_details with
    | some l =>
      if l.length < 2 then
        (10, ["Only 1 MX record - single point of failure"], ["Email service failure"])
      else (0, [], [])
    | none => (0, [], [])
  let emailScore := spf.1 + dmarc.1 + prov.1 + mxRed.1
  { category := "Email Security"
    score := min emailScore 100
    severity := severityOf emailScore
    weight := (emailScore : Rat) / 100
    findings := spf.2.1 ++ dmarc.2.1 ++ prov.2.1 ++ mxRed.2.1
    attackVectors := spf.2.2 ++ dmarc.2.2 ++ prov.2.2 ++ mxRed.2.2 }

/-- Hosting Infrastructure risks. -/
def hostingRisk (hosting : HostingSection) : RiskScore :=
  let parts : Int × List String × List String :=
    match hosting.ip_whois with
    | some ipw =>
      let vpn : Int × List String × List String :=
        if ipw.is_vpn then
          (20, ["Hosting on VPN - suspicious activity possible"], ["Anonymized phishing hosting"])
        else (0, [], [])
      let proxy : Int × List String × List String :=
        if ipw.is_proxy then
          (15, ["Hosting behind proxy - possible malicious use"], ["Proxy-based phishing"])
        else (0, [], [])
      let asn : Int × List String × List String :=
        match truthy ipw.asn with
        | some a => (0, [s!"ASN: {a}"], ["ASN-based targeting"])
        | none => (0, [], [])
      let country : Int × List String × List String :=
        match truthy ipw.country with
        | some c =>
          if c ≠ "United States" then
            (5, [s!"Hosted in: {c} - may indicate regional targeting"], [])
          else (0, [], [])
        | none => (0, [], [])
      let org := (truthy ipw.organization).getD "Unknown"
      (vpn.1 + proxy.1 + asn.1 + country.1,
       vpn.2.1 ++ proxy.2.1 ++ asn.2.1 ++ country.2.1 ++ [s!"Organization: {org}"],
       vpn.2.2 ++ proxy.2.2 ++ asn.2.2 ++ country.2.2)
    | none => (0, [], [])
  { category := "Hosting Infrastructure"
    score := min parts.1 100
    severity := severityOf parts.1
    weight := (parts.1 : Rat) / 100
    findings := parts.2.1
    attackVectors := parts.2.2 }

/-- Web Server risks; the weight is floored at `0.1`. -/
def webRisk (web : WebServer) : RiskScore :=
  let hdr : Int × List String × List String :=
    match truthy web.server_header with
    | some s => (0, [s!"Server: {s}"], ["Server-specific exploits"])
    | none => (0, [], [])
  let cdn : Int × List String × List String :=
    match truthy web.cdn_provider with
    | some c => (-5, [s!"CDN: {c} - provides DDoS protection"], [])
    | none =>
      match truthy web.platform with
      | some p => (5, [s!"Web server: {p}"], [s!"{p} vulnerability targeting"])
      | none => (0, [], [])
  let webScore := hdr.1 + cdn.1
  { category := "Web Server"
    score := min webScore 100
    severity := severityOf webScore
    weight := max ((webScore : Rat) / 100) 0.1
    findings := hdr.2.1 ++ cdn.2.1
    attackVectors := hdr.2.2 ++ cdn.2.2 }

/-- `calculateInfrastructureRisks`: one entry per section present, in the
source's fixed category order. -/
def calculateInfrastructureRisks (E : TimeEnv) (data : InfrastructureData) : List RiskScore :=
  (match data.domain_registration with | some r => [regRisk E r] | none => []) ++
  (match data.dns with | some d => [dnsRisk d] | none => []) ++
  (match data.email with | some e => [emailRisk e] | none => []) ++
  (match data.hosting with | some h => [hostingRisk h] | none => []) ++
  (match data.web_server with | some w => [webRisk w] | none => [])

/-! ## Attack-surface extractor (`extractTop5AttackSurfaces`) -/

/-- Candidate 1, Registrar.  Base medium/50/0.7; expiry under 30 days gives
critical/95/0.95, under 90 days high/75/0.85; a creation date under one
year old then *sets severity to high* (even over critical) and raises the
score to at least 80 and the weight to at least 0.8. -/
def registrarSurface (E : TimeEnv) (data : InfrastructureData) : List AttackSurface :=
  match data.domain_registration with
  | none => []
  | some reg =>
    match truthy reg.registrar with
    | none => []
    | some registrar =>
      let base : Severity × Int × Rat := (.medium, 50, 0.7)
      let afterExpiry : Severity × Int × Rat :=
        match truthy reg.expiration_date with
        | some ed =>
          match daysUntilExpiry E ed with
          | some days =>
            if days < 30 then (.critical, 95, 0.95)
            else if days < 90 then (.high, 75, 0.85)
            else base
          | none => base
        | none => base
      let afterAge : Severity × Int × Rat :=
        match truthy reg.creation_date with
        | some cd =>
          if isYoungDomain E cd then
            (.high, max afterExpiry.2.1 80, max afterExpiry.2.2 0.8)
          else afterExpiry
        | none => afterExpiry
      [{ vector := "Registrar"
         value := registrar
         description := s!"Domain registered with {registrar}"
         phishingTactic := "Spoof registrar communications about domain renewal, billing, or security alerts"
         riskSeverity := afterAge.1
         riskScore := afterAge.2.1
         weight := afterAge.2.2 }]

/-- Candidate 2, Email Provider: critical/90/0.9 with neither SPF nor
DMARC, high/75/0.8 with exactly one missing, low/30/0.3 with both. -/
def emailSurface (data : InfrastructureData) : List AttackSurface :=
  match data.email with
  | none => []
  | some em =>
    match truthy em.mx_provider with
    | none => []
    | some p =>
      let hasSpf := (truthy em.spf_record).isSome
      let hasDmarc := (truthy em.dmarc_record).isSome
      let rated : Severity × Int × Rat :=
        if !hasSpf && !hasDmarc then (.critical, 90, 0.9)
        else if !hasSpf || !hasDmarc then (.high, 75, 0.8)
        else (.low, 30, 0.3)
      [{ vector := "Email Provider"
         value := p
         description := s!"Using {p} for email services"
         phishingTactic := "Impersonate email provider with account alerts, security updates, or verification requests"
         riskSeverity := rated.1
         riskScore := rated.2.1
         weight := rated.2.2 }]

/-- Candidate 3, DNS Provider. -/
def dnsSurface (data : InfrastructureData) : List AttackSurface :=
  match data.dns with
  | none => []
  | some d =>
    match truthy d.ns_provider with
    | none => []
    | some p =>
      let hasDnssec : Bool :=
        match truthy d.dnssec with
        | some s => s ≠ "unsigned"
        | none => false
      let nsCount := (d.nameservers.getD []).length
      let rated : Severity × Int × Rat :=
        if !hasDnssec && nsCount < 2 then (.high, 80, 0.8)
        else if !hasDnssec then (.medium, 60, 0.6)
        else (.medium, 50, 0.6)
      [{ vector := "DNS Provider"
         value := p
         description := s!"DNS hosted by {p}"
         phishingTactic := "Pose as DNS provider with urgent alerts about DNS configuration or security issues"
         riskSeverity := rated.1
         riskScore := rated.2.1
         weight := rated.2.2 }]

/-- Candidate 4, Registrant Contact. -/
def registrantSurface (data : InfrastructureData) : List AttackSurface :=
  match data.domain_registration with
  | none => []
  | some reg =>
    if (truthy reg.registrant_name).isSome || (truthy reg.registrant_organization).isSome then
      let contactName :=
        ((truthy reg.registrant_name).getD ((truthy reg.registrant_organization).getD "Unknown"))
      let rated : Severity × Int × Rat :=
        if (truthy reg.registrant_email).isSome then (.high, 75, 0.75)
        else (.medium, 55, 0.65)
      [{ vector := "Registrant Contact"
         value := contactName
         description := s!"Domain registered to {contactName}"
         phishingTactic := "Target registrant with personalized emails using their name and organization"
         riskSeverity := rated.1
         riskScore := rated.2.1
         weight := rated.2.2 }]
    else []

/-- Candidate 5, Hosting Provider. -/
def hostingSurface (data : InfrastructureData) : List AttackSurface :=
  match data.hosting with
  | none => []
  | some h =>
    match h.ip_whois with
    | none => []
    | some ipw =>
      if (truthy ipw.organization).isSome || (truthy ipw.isp).isSome then
        let rated : Severity × Int × Rat :=
          if ipw.is_vpn || ipw.is_proxy then (.high, 75, 0.75)
          else (.low, 40, 0.4)
        let hostProvider := (truthy ipw.organization).getD ((truthy ipw.isp).getD "Unknown")
        let countrySuffix :=
          match truthy ipw.country with
          | some c => s!" ({c})"
          | none => ""
        [{ vector := "Hosting Provider"
           value := hostProvider
           description := s!"Hosted by {hostProvider}" ++ countrySuffix
           phishingTactic := "Impersonate hosting provider with security alerts or account verification requests"
           riskSeverity := rated.1
           riskScore := rated.2.1
           weight := rated.2.2 }]
      else []

/-- Candidate 6, Web Server: always low/35/0.35. -/
def webSurface (data : InfrastructureData) : List AttackSurface :=
  match data.web_server with
  | none => []
  | some w =>
    if (truthy w.platform).isSome || (truthy w.server_header).isSome then
      let platform := (truthy w.platform).getD "Unknown"
      [{ vector := "Web Server"
         value := platform
         description := s!"Running {platform} web server"
         phishingTactic := s!"Target {platform}-specific vulnerabilities or platform administration teams"
         riskSeverity := .low
         riskScore := 35
         weight := 0.35 }]
    else []

/-- The six candidates, in the source's fixed insertion order. -/
def surfaceCandidates (E : TimeEnv) (data : InfrastructureData) : List AttackSurface :=
  registrarSurface E data ++ emailSurface data ++ dnsSurface data ++
  registrantSurface data ++ hostingSurface data ++ webSurface data

/-- Stable insert for a descending sort on `riskScore`: the inserted
element came *before* the list elements in the original order, so it is
placed in front of every element of equal score. -/
def insertSurface (x : AttackSurface) : List AttackSurface → List AttackSurface
  | [] => [x]
  | y :: ys => if y.riskScore ≤ x.riskScore then x :: y :: ys else y :: insertSurface x ys

/-- `surfaces.sort((a, b) => (b.riskScore || 0) - (a.riskScore || 0))`:
`Array.prototype.sort` is stable (ES2019), so its result is the unique
descending order that keeps equal-score elements in insertion order —
computed here by stable insertion sort. -/
def sortSurfaces : List AttackSurface → List AttackSurface
  | [] => []
  | x :: xs => insertSurface x (sortSurfaces xs)

/-- `extractTop5AttackSurfaces`.  The `riskScores` parameter is accepted
(and loaded into a lookup map) by the source but never read afterwards. -/
def extractTop5AttackSurfaces (E : TimeEnv) (data : InfrastructureData)
    (_riskScores : List RiskScore) : List AttackSurface :=
  (sortSurfaces (surfaceCandidates E data)).take 5

/-! ## The aggregator: `POST /api/infrastructure` -/

inductive ApiResponse where
  | ok (result : InfrastructureData) (riskScores : List RiskScore)
      (attackSurfaces : List AttackSurface)
  | clientError (message : String)
  deriving Repr

/-- The aggregation phase of the `POST` handler (everything after
validation and normalization), mirroring the source top to bottom:
DNS, HTTP, WHOIS (the only warning source), email fusion, IP lookup gated
on a resolved A record. -/
def aggResult (env : Env) (cleanDomain : String) : InfrastructureData :=
      let dnsData := resolveDNS env.dnsOutcomes
      let dnsSec : Option DnsSection :=
        if dnsData.a_records.length > 0 then
          some { nameservers := some dnsData.nameservers
                 a_records := some dnsData.a_records
                 aaaa_records := some dnsData.aaaa_records
                 mx_records := some dnsData.mx_records
                 txt_records := some dnsData.txt_records.flatten
                 soa_record := dnsData.soa_record
                 ns_provider := some (detectNsProvider dnsData.nameservers)
                 dnssec := none }
        else none
      let httpHeaders := getHttpHeaders env.http
      let webSec : Option WebServer :=
        if (truthy httpHeaders.server_header).isSome ||
           (truthy httpHeaders.powered_by).isSome then
          some { server_header := httpHeaders.server_header
                 platform := httpHeaders.platform
                 cdn_provider := httpHeaders.cdn_provider }
        else none
      let whoisData := getWhoisInfo env.whoisRaw
      let regSec : Option DomainRegistration :=
        if whoisData.isEmptyRec then none else some whoisData
      let warnings : List String :=
        if whoisData.isEmptyRec then ["WHOIS data unavailable"] else []
      let emailSec : Option EmailSection :=
        match dnsData.mx_records with
        | [] => none
        | mx0 :: _ =>
          let txtFlat := dnsData.txt_records.flatten
          let spf := txtFlat.find? (fun s => containsStr s "v=spf1")
          some { mx_provider := some (detectEmailProvider mx0.exchange)
                 spf_record := spf
                 dmarc_record := dnsData.dmarc_txt
                 mx_details := some (dnsData.mx_records.map (fun mx =>
                   { priority := mx.priority
                     exchange := mx.exchange
                     provider := detectEmailProvider mx.exchange })) }
      let hostSec : Option HostingSection :=
        match dnsData.a_records with
        | [] => none
        | ip :: _ =>
          if ip = "" then none
          else some { ip_address := some ip
                      ipv6_addresses := some dnsData.aaaa_records
                      ip_whois := some (env.ipLookup ip) }
      { domain := cleanDomain
        timestamp := env.time.nowIso
        domain_registration := regSec
        dns := dnsSec
        hosting := hostSec
        web_server := webSec
        email := emailSec
        metadata := some
          { data_sources := ["Node.js DNS Module", "WHOIS Protocol", "HTTP Headers", "ipwhois.app API"]
            collection_method := "Passive Reconnaissance (Native & Public APIs)"
            notes := ["Using Node.js DNS resolver for queries", "WHOIS data from real WHOIS servers",
                      "No command-line tools required", "Windows compatible",
                      "Risk scores calculated for each category"]
            warnings := warnings } }

/-- The `POST` handler as a function of the request's `domain` field
(`none` models a missing or non-string `domain`, both falsy) and the
lookup outcomes: validation (the empty string is also falsy),
normalization, aggregation, scoring, extraction. -/
def POSTHandler (body : Option String) (env : Env) : ApiResponse :=
  match body with
  | none => .clientError "Domain is required"
  | some domain =>
    if domain = "" then .clientError "Domain is required"
    else
      let result := aggResult env (normalizeDomain domain)
      let riskScores := calculateInfrastructureRisks env.time result
      let attackSurfaces := extractTop5AttackSurfaces env.time result riskScores
      .ok result riskScores attackSurfaces

/-- Whether a response is the success shape `{result, riskScores, attackSurfaces}`. -/
def ApiResponse.isOk : ApiResponse → Bool
  | .ok _ _ _ => true
  | .clientError _ => false

/-- The `result.metadata.warnings` list of a success response. -/
def ApiResponse.warningsOf : ApiResponse → List String
  | .ok r _ _ => (r.metadata.map Metadata.warnings).getD []
  | .clientError _ => []

/-- The `result.dns` section of a success response. -/
def ApiResponse.dnsOf : ApiResponse → Option DnsSection
  | .ok r _ _ => r.dns
  | .clientError _ => none

/-- The `result.hosting` section of a success response. -/
def ApiResponse.hostingOf : ApiResponse → Option HostingSection
  | .ok r _ _ => r.hosting
  | .clientError _ => none

/-- The `riskScores` list of a success response. -/
def ApiResponse.riskScoresOf : ApiResponse → List RiskScore
  | .ok _ rs _ => rs
  | .clientError _ => []

/-! ## Lemmas about the stable sort and the candidate list -/

/-- The fixed evaluation priority of the six candidate vectors
(their insertion order in `extractTop5AttackSurfaces`). -/
def vecPrio : String → Nat
  | "Registrar" => 0
  | "Email Provider" => 1
  | "DNS Provider" => 2
  | "Registrant Contact" => 3
  | "Hosting Provider" => 4
  | "Web Server" => 5
  | _ => 6

theorem mem_insertSurface {a x : AttackSurface} {l : List AttackSurface} :
    a ∈ insertSurface x l ↔ a = x ∨ a ∈ l := by
  induction l with
  | nil => simp [insertSurface]
  | cons y ys ih =>
    simp only [insertSurface]
    split
    · simp [or_comm, or_left_comm]
    · simp [ih, or_left_comm]

theorem length_insertSurface (x : AttackSurface) (l : List AttackSurface) :
    (insertSurface x l).length = l.length + 1 := by
  induction l with
  | nil => rfl
  | cons y ys ih =>
    simp only [insertSurface]
    split <;> simp [ih]

theorem mem_sortSurfaces {a : AttackSurface} {l : List AttackSurface} :
    a ∈ sortSurfaces l ↔ a ∈ l := by
  induction l with
  | nil => simp [sortSurfaces]
  | cons y ys ih => simp [sortSurfaces, mem_insertSurface, ih]

theorem length_sortSurfaces (l : List AttackSurface) :
    (sortSurfaces l).length = l.length := by
  induction l with
  | nil => rfl
  | cons y ys ih => simp [sortSurfaces, length_insertSurface, ih]

theorem pairwise_ge_insertSurface {x : AttackSurface} {l : List AttackSurface}
    (h : l.Pairwise (fun a b => b.riskScore ≤ a.riskScore)) :
    (insertSurface x l).Pairwise (fun a b => b.riskScore ≤ a.riskScore) := by
  induction l with
  | nil => simp [insertSurface]
  | cons y ys ih =>
    rcases List.pairwise_cons.mp h with ⟨hy, hys⟩
    simp only [insertSurface]
    split
    · rename_i hle
      refine List.pairwise_cons.mpr ⟨?_, h⟩
      intro z hz
      rcases List.mem_cons.mp hz with rfl | hz
      · exact hle
      · exact le_trans (hy z hz) hle
    · rename_i hlt
      push_neg at hlt
      refine List.pairwise_cons.mpr ⟨?_, ih hys⟩
      intro z hz
      rcases mem_insertSurface.mp hz with rfl | hz
      · exact le_of_lt hlt
      · exact hy z hz

/-- The sort output is non-increasing in `riskScore`, for any input. -/
theorem sortSurfaces_sorted (l : List AttackSurface) :
    (sortSurfaces l).Pairwise (fun a b => b.riskScore ≤ a.riskScore) := by
  induction l with
  | nil => simp [sortSurfaces]
  | cons y ys ih => exact pairwise_ge_insertSurface ih

theorem pairwise_stable_insertSurface {x : AttackSurface} {l : List AttackSurface}
    (hP : ∀ z ∈ l, vecPrio x.vector < vecPrio z.vector)
    (h : l.Pairwise (fun a b => a.riskScore = b.riskScore → vecPrio a.vector < vecPrio b.vector)) :
    (insertSurface x l).Pairwise
      (fun a b => a.riskScore = b.riskScore → vecPrio a.vector < vecPrio b.vector) := by
  induction l with
  | nil => simp [insertSurface]
  | cons y ys ih =>
    rcases List.pairwise_cons.mp h with ⟨hy, hys⟩
    simp only [insertSurface]
    split
    · refine List.pairwise_cons.mpr ⟨?_, h⟩
      intro z hz _
      exact hP z hz
    · rename_i hlt
      push_neg at hlt
      refine List.pairwise_cons.mpr ⟨?_, ?_⟩
      · intro z hz
        rcases mem_insertSurface.mp hz with rfl | hz
        · intro heq
          exact absurd heq.symm (ne_of_lt hlt)
        · exact hy z hz
      · exact ih (fun z hz => hP z (List.mem_cons_of_mem _ hz)) hys

/-- Stability: if the input is strictly increasing in candidate priority,
equal-score elements of the sorted output stay in priority order. -/
theorem sortSurfaces_stable {l : List AttackSurface}
    (h : l.Pairwise (fun a b => vecPrio a.vector < vecPrio b.vector)) :
    (sortSurfaces l).Pairwise
      (fun a b => a.riskScore = b.riskScore → vecPrio a.vector < vecPrio b.vector) := by
  induction l with
  | nil => simp [sortSurfaces]
  | cons y ys ih =>
    rcases List.pairwise_cons.mp h with ⟨hy, hys⟩
    exact pairwise_stable_insertSurface
      (fun z hz => hy z (mem_sortSurfaces.mp hz)) (ih hys)

theorem registrarSurface_mem {E : TimeEnv} {data : InfrastructureData} {s : AttackSurface}
    (h : s ∈ registrarSurface E data) : s.vector = "Registrar" := by
  unfold registrarSurface at h
  repeat' split at h <;> simp_all

theorem emailSurface_mem {data : InfrastructureData} {s : AttackSurface}
    (h : s ∈ emailSurface data) : s.vector = "Email Provider" := by
  unfold emailSurface at h
  repeat' split at h <;> simp_all

theorem dnsSurface_mem {data : InfrastructureData} {s : AttackSurface}
    (h : s ∈ dnsSurface data) : s.vector = "DNS Provider" := by
  unfold dnsSurface at h
  repeat' split at h <;> simp_all

theorem registrantSurface_mem {data : InfrastructureData} {s : AttackSurface}
    (h : s ∈ registrantSurface data) : s.vector = "Registrant Contact" := by
  unfold registrantSurface at h
  repeat' split at h <;> simp_all

theorem hostingSurface_mem {data : InfrastructureData} {s : AttackSurface}
    (h : s ∈ hostingSurface data) : s.vector = "Hosting Provider" := by
  unfold hostingSurface at h
  repeat' split at h <;> simp_all

theorem webSurface_mem {data : InfrastructureData} {s : AttackSurface}
    (h : s ∈ webSurface data) : s.vector = "Web Server" ∧ s.riskScore = 35 := by
  unfold webSurface at h
  repeat' split at h <;> simp_all

theorem pairwise_of_short {R : AttackSurface → AttackSurface → Prop}
    {l : List AttackSurface} (h : l.length ≤ 1) : l.Pairwise R := by
  match l, h with
  | [], _ => exact List.Pairwise.nil
  | [a], _ => simp

theorem registrarSurface_short (E : TimeEnv) (data : InfrastructureData) :
    (registrarSurface E data).length ≤ 1 := by
  unfold registrarSurface
  (repeat' split) <;> simp

theorem emailSurface_short (data : InfrastructureData) :
    (emailSurface data).length ≤ 1 := by
  unfold emailSurface
  (repeat' split) <;> simp

theorem dnsSurface_short (data : InfrastructureData) :
    (dnsSurface data).length ≤ 1 := by
  unfold dnsSurface
  (repeat' split) <;> simp

theorem registrantSurface_short (data : InfrastructureData) :
    (registrantSurface data).length ≤ 1 := by
  unfold registrantSurface
  (repeat' split) <;> simp

theorem hostingSurface_short (data : InfrastructureData) :
    (hostingSurface data).length ≤ 1 := by
  unfold hostingSurface
  (repeat' split) <;> simp

theorem webSurface_short (data : InfrastructureData) :
    (webSurface data).length ≤ 1 := by
  unfold webSurface
  (repeat' split) <;> simp

theorem pairwise_append_bound {l1 l2 : List AttackSurface} {n : Nat}
    (h1 : l1.Pairwise (fun a b => vecPrio a.vector < vecPrio b.vector))
    (h2 : l2.Pairwise (fun a b => vecPrio a.vector < vecPrio b.vector))
    (b1 : ∀ a ∈ l1, vecPrio a.vector < n)
    (b2 : ∀ b ∈ l2, n ≤ vecPrio b.vector) :
    (l1 ++ l2).Pairwise (fun a b => vecPrio a.vector < vecPrio b.vector) :=
  List.pairwise_append.mpr ⟨h1, h2, fun a ha b hb => lt_of_lt_of_le (b1 a ha) (b2 b hb)⟩

theorem bound_append {l1 l2 : List AttackSurface} {n : Nat}
    (b1 : ∀ a ∈ l1, vecPrio a.vector < n)
    (b2 : ∀ b ∈ l2, vecPrio b.vector < n) :
    ∀ a ∈ l1 ++ l2, vecPrio a.vector < n := by
  intro a ha
  rcases List.mem_append.mp ha with h | h
  · exact b1 a h
  · exact b2 a h

/-- The candidate list is strictly increasing in vector priority. -/
theorem surfaceCandidates_pairwise (E : TimeEnv) (data : InfrastructureData) :
    (surfaceCandidates E data).Pairwise (fun a b => vecPrio a.vector < vecPrio b.vector) := by
  have br : ∀ a ∈ registrarSurface E data, vecPrio a.vector < 1 := by
    intro a ha; rw [registrarSurface_mem ha]; decide
  have be : ∀ a ∈ emailSurface data, vecPrio a.vector < 2 := by
    intro a ha; rw [emailSurface_mem ha]; decide
  have bd : ∀ a ∈ dnsSurface data, vecPrio a.vector < 3 := by
    intro a ha; rw [dnsSurface_mem ha]; decide
  have bc : ∀ a ∈ registrantSurface data, vecPrio a.vector < 4 := by
    intro a ha; rw [registrantSurface_mem ha]; decide
  have bh : ∀ a ∈ hostingSurface data, vecPrio a.vector < 5 := by
    intro a ha; rw [hostingSurface_mem ha]; decide
  have bw : ∀ a ∈ webSurface data, vecPrio a.vector < 6 := by
    intro a ha; rw [(webSurface_mem ha).1]; decide
  have ge : ∀ a ∈ emailSurface data, 1 ≤ vecPrio a.vector := by
    intro a ha; rw [emailSurface_mem ha]; decide
  have gd : ∀ a ∈ dnsSurface data, 2 ≤ vecPrio a.vector := by
    intro a ha; rw [dnsSurface_mem ha]; decide
  have gc : ∀ a ∈ registrantSurface data, 3 ≤ vecPrio a.vector := by
    intro a ha; rw [registrantSurface_mem ha]; decide
  have gh : ∀ a ∈ hostingSurface data, 4 ≤ vecPrio a.vector := by
    intro a ha; rw [hostingSurface_mem ha]; decide
  have gw : ∀ a ∈ webSurface data, 5 ≤ vecPrio a.vector := by
    intro a ha; rw [(webSurface_mem ha).1]; decide
  have p1 := pairwise_append_bound (pairwise_of_short (registrarSurface_short E data))
    (pairwise_of_short (emailSurface_short data)) br ge
  have q1 : ∀ a ∈ registrarSurface E data ++ emailSurface data, vecPrio a.vector < 2 :=
    bound_append (fun a ha => lt_trans (br a ha) (by decide)) be
  have p2 := pairwise_append_bound p1 (pairwise_of_short (dnsSurface_short data)) q1 gd
  have q2 : ∀ a ∈ registrarSurface E data ++ emailSurface data ++ dnsSurface data,
      vecPrio a.vector < 3 :=
    bound_append (fun a ha => lt_trans (q1 a ha) (by decide)) bd
  have p3 := pairwise_append_bound p2 (pairwise_of_short (registrantSurface_short data)) q2 gc
  have q3 : ∀ a ∈ registrarSurface E data ++ emailSurface data ++ dnsSurface data ++
      registrantSurface data, vecPrio a.vector < 4 :=
    bound_append (fun a ha => lt_trans (q2 a ha) (by decide)) bc
  have p4 := pairwise_append_bound p3 (pairwise_of_short (hostingSurface_short data)) q3 gh
  have q4 : ∀ a ∈ registrarSurface E data ++ emailSurface data ++ dnsSurface data ++
      registrantSurface data ++ hostingSurface data, vecPrio a.vector < 5 :=
    bound_append (fun a ha => lt_trans (q3 a ha) (by decide)) bh
  have p5 := pairwise_append_bound p4 (pairwise_of_short (webSurface_short data)) q4 gw
  exact p5

theorem surfaceCandidates_length (E : TimeEnv) (data : InfrastructureData) :
    (surfaceCandidates E data).length ≤ 6 := by
  unfold surfaceCandidates
  simp only [List.length_append]
  have h1 := registrarSurface_short E data
  have h2 := emailSurface_short data
  have h3 := dnsSurface_short data
  have h4 := registrantSurface_short data
  have h5 := hostingSurface_short data
  have h6 := webSurface_short data
  omega

theorem truthy_none : truthy none = none := rfl

theorem truthy_some {s : String} (h : s ≠ "") : truthy (some s) = some s := by
  unfold truthy
  (repeat' split) <;> simp_all

/-- An element of a list of length at most six survives `take 5` of the
descending sort provided, when all six candidates are present, some
element scores strictly below it. -/
theorem mem_take_five {l : List AttackSurface} {x : AttackSurface}
    (hx : x ∈ l) (hlen : l.length ≤ 6)
    (hbeat : l.length = 6 → ∃ w ∈ l, w.riskScore < x.riskScore) :
    x ∈ (sortSurfaces l).take 5 := by
  by_cases h : (sortSurfaces l).length ≤ 5
  · rw [List.take_of_length_le h]
    exact mem_sortSurfaces.mpr hx
  · push_neg at h
    have hlen6 : (sortSurfaces l).length = 6 := by
      rw [length_sortSurfaces]
      rw [length_sortSurfaces] at h
      omega
    obtain ⟨w, hw, hwx⟩ := hbeat (by rw [length_sortSurfaces] at hlen6; exact hlen6)
    have hne : sortSurfaces l ≠ [] := by
      intro hnil
      rw [hnil] at hlen6
      simp at hlen6
    have hsplit := List.dropLast_append_getLast hne
    have hdl : (sortSurfaces l).dropLast.length = 5 := by
      rw [List.length_dropLast, hlen6]
    have htake : (sortSurfaces l).take 5 = (sortSurfaces l).dropLast := by
      conv_lhs => rw [← hsplit]
      exact List.take_left' hdl
    rw [htake]
    have hxs : x ∈ (sortSurfaces l).dropLast ++ [(sortSurfaces l).getLast hne] := by
      rw [hsplit]
      exact mem_sortSurfaces.mpr hx
    have hws : w ∈ (sortSurfaces l).dropLast ++ [(sortSurfaces l).getLast hne] := by
      rw [hsplit]
      exact mem_sortSurfaces.mpr hw
    rcases List.mem_append.mp hxs with hmem | hmem
    · exact hmem
    · exfalso
      have hx_last : x = (sortSurfaces l).getLast hne := List.mem_singleton.mp hmem
      have hsorted : ((sortSurfaces l).dropLast ++ [(sortSurfaces l).getLast hne]).Pairwise
          (fun a b => b.riskScore ≤ a.riskScore) := by
        rw [hsplit]
        exact sortSurfaces_sorted l
      rcases List.mem_append.mp hws with hwm | hwm
      · have hle := (List.pairwise_append.mp hsorted).2.2 w hwm
          ((sortSurfaces l).getLast hne) (List.mem_singleton.mpr rfl)
        rw [← hx_last] at hle
        exact absurd hwx (not_lt.mpr hle)
      · have hw_last : w = (sortSurfaces l).getLast hne := List.mem_singleton.mp hwm
        rw [hx_last, ← hw_last] at hwx
        exact absurd hwx (lt_irrefl _)

/-- C2: `attackSurfaces` has length at most 5, is sorted non-increasingly
by `riskScore`, and equal-score entries keep the fixed candidate insertion
order Registrar, Email Provider, DNS Provider, Registrant Contact,
Hosting Provider, Web Server (`vecPrio`). -/
theorem attack_surfaces_bounded_sorted_stable (E : TimeEnv) (data : InfrastructureData)
    (rs : List RiskScore) :
    (extractTop5AttackSurfaces E data rs).length ≤ 5 ∧
    (extractTop5AttackSurfaces E data rs).Pairwise
      (fun a b => b.riskScore ≤ a.riskScore) ∧
    (extractTop5AttackSurfaces E data rs).Pairwise
      (fun a b => a.riskScore = b.riskScore → vecPrio a.vector < vecPrio b.vector) := by
  refine ⟨?_, ?_, ?_⟩
  · unfold extractTop5AttackSurfaces
    rw [List.length_take]
    exact inf_le_left
  · exact List.Pairwise.sublist (List.take_sublist _ _) (sortSurfaces_sorted _)
  · exact List.Pairwise.sublist (List.take_sublist _ _)
      (sortSurfaces_stable (surfaceCandidates_pairwise E data))

/-- C5: with MX-derived email data present (`mx_provider` is always
assigned by the aggregator when MX records exist) and both SPF and DMARC
absent, the Email Security category scores at least 45 (25 + 20) and the
Email Provider attack surface appears in the returned top 5 with severity
critical (and score 90). -/
theorem email_no_spf_dmarc_critical (E : TimeEnv) (data : InfrastructureData)
    (rs : List RiskScore) (em : EmailSection) (p : String)
    (hemail : data.email = some em)
    (hspf : em.spf_record = none) (hdmarc : em.dmarc_record = none)
    (hprov : em.mx_provider = some p) (hp : p ≠ "") :
    (∃ r ∈ calculateInfrastructureRisks E data,
       r.category = "Email Security" ∧ 45 ≤ r.score) ∧
    (∃ s ∈ extractTop5AttackSurfaces E data rs,
       s.vector = "Email Provider" ∧ s.riskSeverity = Severity.critical ∧
       s.riskScore = 90) := by
  constructor
  · refine ⟨emailRisk em, ?_, rfl, ?_⟩
    · unfold calculateInfrastructureRisks
      rw [hemail]
      simp [List.mem_append]
    · unfold emailRisk
      rw [hspf, hdmarc, hprov, truthy_none]
      simp only
      (repeat' split) <;> simp
  · have hes : emailSurface data =
        [{ vector := "Email Provider"
           value := p
           description := s!"Using {p} for email services"
           phishingTactic := "Impersonate email provider with account alerts, security updates, or verification requests"
           riskSeverity := .critical
           riskScore := 90
           weight := 0.9 }] := by
      unfold emailSurface
      rw [hemail]
      simp only [hprov, hspf, hdmarc, truthy_none, truthy_some hp]
      simp
    set es : AttackSurface :=
      { vector := "Email Provider"
        value := p
        description := s!"Using {p} for email services"
        phishingTactic := "Impersonate email provider with account alerts, security updates, or verification requests"
        riskSeverity := .critical
        riskScore := 90
        weight := 0.9 } with hesdef
    have hmem : es ∈ surfaceCandidates E data := by
      unfold surfaceCandidates
      rw [hes]
      simp [List.mem_append]
    have hbeat : (surfaceCandidates E data).length = 6 →
        ∃ w ∈ surfaceCandidates E data, w.riskScore < es.riskScore := by
      intro h6
      have h1 := registrarSurface_short E data
      have h2 := emailSurface_short data
      have h3 := dnsSurface_short data
      have h4 := registrantSurface_short data
      have h5 := hostingSurface_short data
      have hw6 := webSurface_short data
      have hwlen : (webSurface data).length = 1 := by
        unfold surfaceCandidates at h6
        simp only [List.length_append] at h6
        omega
      obtain ⟨ws, hws⟩ := List.length_eq_one.mp hwlen
      have hwmem : ws ∈ webSurface data := by
        rw [hws]
        exact List.mem_singleton.mpr rfl
      refine ⟨ws, ?_, ?_⟩
      · unfold surfaceCandidates
        simp only [List.mem_append]
        exact Or.inr hwmem
      · rw [(webSurface_mem hwmem).2]
        simp [hesdef]
    refine ⟨es, ?_, rfl, rfl, rfl⟩
    unfold extractTop5AttackSurfaces
    exact mem_take_five hmem (surfaceCandidates_length E data) hbeat

/-! ## Score bounds (C4) -/

set_option maxHeartbeats 1000000 in
theorem regRisk_bounds (E : TimeEnv) (reg : DomainRegistration) :
    -20 ≤ (regRisk E reg).score ∧ (regRisk E reg).score ≤ 100 := by
  unfold regRisk
  dsimp only
  (repeat' split) <;> (dsimp only) <;> omega

theorem dnsRisk_bounds (dns : DnsSection) :
    -20 ≤ (dnsRisk dns).score ∧ (dnsRisk dns).score ≤ 100 := by
  unfold dnsRisk
  (repeat' split) <;> simp

theorem emailRisk_bounds (email : EmailSection) :
    -20 ≤ (emailRisk email).score ∧ (emailRisk email).score ≤ 100 := by
  unfold emailRisk
  (repeat' split) <;> simp

theorem hostingRisk_bounds (hosting : HostingSection) :
    -20 ≤ (hostingRisk hosting).score ∧ (hostingRisk hosting).score ≤ 100 := by
  unfold hostingRisk
  (repeat' split) <;> simp

theorem webRisk_bounds (web : WebServer) :
    -20 ≤ (webRisk web).score ∧ (webRisk web).score ≤ 100 := by
  unfold webRisk
  (repeat' split) <;> simp

/-- C4 (amended): every category score is clamped above at 100 by
`min(score, 100)`, and is bounded below by −20 (the largest possible sum
of risk-reducing contributions, attained by Email Security); there is no
clamp at 0. -/
theorem risk_scores_bounded (E : TimeEnv) (data : InfrastructureData) :
    ∀ r ∈ calculateInfrastructureRisks E data, -20 ≤ r.score ∧ r.score ≤ 100 := by
  intro r hr
  unfold calculateInfrastructureRisks at hr
  simp only [List.mem_append] at hr
  rcases hr with ((((h | h) | h) | h) | h)
  · split at h
    · rw [List.mem_singleton] at h; subst h; exact regRisk_bounds E _
    · exact absurd h (List.not_mem_nil r)
  · split at h
    · rw [List.mem_singleton] at h; subst h; exact dnsRisk_bounds _
    · exact absurd h (List.not_mem_nil r)
  · split at h
    · rw [List.mem_singleton] at h; subst h; exact emailRisk_bounds _
    · exact absurd h (List.not_mem_nil r)
  · split at h
    · rw [List.mem_singleton] at h; subst h; exact hostingRisk_bounds _
    · exact absurd h (List.not_mem_nil r)
  · split at h
    · rw [List.mem_singleton] at h; subst h; exact webRisk_bounds _
    · exact absurd h (List.not_mem_nil r)

/-- A fixed environment whose clock is at epoch and whose date parser
rejects everything. -/
def tEnv0 : TimeEnv :=
  { now := 0, nowIso := "", parseMs := fun _ => none }

/-- A DNS section with a managed nameserver provider, signed DNSSEC,
two nameservers and an A record: every conditional contribution of the
DNS Security category is risk-reducing. -/
def dataManagedDns : InfrastructureData :=
  { domain := "example.com"
    timestamp := ""
    dns := some
      { nameservers := some ["ns1.example.com", "ns2.example.com"]
        a_records := some ["1.2.3.4"]
        ns_provider := some "Cloudflare"
        dnssec := some "signed" } }

/-- C4 counterexample: the DNS Security score of `dataManagedDns`
is −15, outside [0, 100] — the claimed lower clamp at 0 does not exist. -/
theorem risk_score_negative_counterexample :
    (calculateInfrastructureRisks tEnv0 dataManagedDns).map RiskScore.score = [-15] ∧
    ¬ (∀ r ∈ calculateInfrastructureRisks tEnv0 dataManagedDns,
        0 ≤ r.score ∧ r.score ≤ 100) := by
  constructor
  · decide
  · decide

/-- Witness for `risk_scores_bounded` at the concrete `dataManagedDns`. -/
theorem risk_scores_bounded_witness :
    -20 ≤ (dnsRisk { nameservers := some ["ns1.example.com", "ns2.example.com"]
                     a_records := some ["1.2.3.4"]
                     ns_provider := some "Cloudflare"
                     dnssec := some "signed" }).score ∧
    (dnsRisk { nameservers := some ["ns1.example.com", "ns2.example.com"]
               a_records := some ["1.2.3.4"]
               ns_provider := some "Cloudflare"
               dnssec := some "signed" }).score ≤ 100 :=
  risk_scores_bounded tEnv0 dataManagedDns _ (List.Mem.head _)

/-! ## Domain normalization (C3) -/

theorem toNat_ofNatValid {n : Nat} (h : n.isValidChar) : (Char.ofNat n).toNat = n := by
  unfold Char.ofNat
  rw [dif_pos h]
  rfl

theorem lowerChar_not_upper (c : Char) :
    ¬(65 ≤ (lowerChar c).toNat ∧ (lowerChar c).toNat ≤ 90) := by
  unfold lowerChar
  split
  · rename_i h
    have hv : (c.toNat + 32).isValidChar := by
      unfold Nat.isValidChar
      left
      omega
    rw [toNat_ofNatValid hv]
    omega
  · rename_i h
    exact h

theorem lowerChar_ne_slash {c : Char} (h : c ≠ '/') : lowerChar c ≠ '/' := by
  unfold lowerChar
  split
  · rename_i hc
    intro he
    have h1 := congrArg Char.toNat he
    have hv : (c.toNat + 32).isValidChar := by
      unfold Nat.isValidChar
      left
      omega
    rw [toNat_ofNatValid hv] at h1
    have h2 : ('/' : Char).toNat = 47 := rfl
    omega
  · exact h

/-- C3 (amended): for every input the normalized domain is lowercase
(no ASCII uppercase remains) and contains no `/` (the path is stripped),
and a *lowercase-formatted* scheme and `www.` prefix are stripped
(`https://www.Example.com/path` gives `example.com`).  The anchored
regexes are case-sensitive, so a mixed-case prefix is not stripped. -/
theorem normalize_domain_lower_no_path (s : String) :
    (∀ c ∈ (normalizeDomain s).data, ¬(65 ≤ c.toNat ∧ c.toNat ≤ 90)) ∧
    (∀ c ∈ (normalizeDomain s).data, c ≠ '/') ∧
    normalizeDomain "https://www.Example.com/path" = "example.com" := by
  refine ⟨?_, ?_, by decide⟩
  · intro c hc
    unfold normalizeDomain lowerStr at hc
    simp only [List.mem_map] at hc
    obtain ⟨d, _, rfl⟩ := hc
    exact lowerChar_not_upper d
  · intro c hc
    unfold normalizeDomain lowerStr at hc
    simp only [List.mem_map] at hc
    obtain ⟨d, hd, rfl⟩ := hc
    have hp := List.mem_takeWhile_imp hd
    simp only [decide_eq_true_eq] at hp
    exact lowerChar_ne_slash hp

/-- C3 counterexample: the scheme regex `/^https?:\/\//` is
case-sensitive, so `HTTPS://WWW.Example.com/path` is split at the first
`/` of `HTTPS://` and normalizes to `"https:"`, not `"example.com"`. -/
theorem normalize_domain_case_counterexample :
    normalizeDomain "HTTPS://WWW.Example.com/path" = "https:" ∧
    normalizeDomain "HTTPS://WWW.Example.com/path" ≠ "example.com" := by
  constructor
  · decide
  · decide
example : normalizeDomain "HTTPS://WWW.Example.com/path" = "https:" := by decide
example : containsStr "abcde" "bcd" = true := by decide
example : containsStr "abcde" "bce" = false := by decide
example : trimStr "  a b \r\n" = "a b" := by decide
example : splitFirstColon "ab: cd:e".data = some ("ab".data, " cd:e".data) := by decide

/-! ## Registrar surface heuristic (C9) -/

/-- Whether the creation date marks the domain as under one year old
(false when the date is absent, empty, or unparseable). -/
def regYoung (E : TimeEnv) (reg : DomainRegistration) : Bool :=
  match truthy reg.creation_date with
  | some cd => isYoungDomain E cd
  | none => false

/-- The Registrar candidate's rating as a case table over the days-until-
expiry and the age flag (the amended-claim form of the heuristic): the
age<1y branch *sets* severity to high — demoting the critical expiry case —
and raises score and weight only up to 80 / 0.8. -/
def registrarRatingSpec (days : Option Int) (young : Bool) : Severity × Int × Rat :=
  match days, young with
  | some d, false =>
    if d < 30 then (.critical, 95, 0.95)
    else if d < 90 then (.high, 75, 0.85)
    else (.medium, 50, 0.7)
  | some d, true =>
    if d < 30 then (.high, 95, 0.95)
    else if d < 90 then (.high, 80, 0.85)
    else (.high, 80, 0.8)
  | none, false => (.medium, 50, 0.7)
  | none, true => (.high, 80, 0.8)

/-- C9 (amended): the Registrar candidate follows `registrarRatingSpec`:
base medium/50/0.7; critical/95/0.95 for expiry under 30 days and
high/75/0.85 under 90 days *only when the domain is not under one year
old*; when it is, severity is high in every case (95 or 80 score,
0.95 / 0.85 / 0.8 weight). -/
theorem registrar_surface_heuristic (E : TimeEnv) (data : InfrastructureData)
    (reg : DomainRegistration) (r : String)
    (hreg : data.domain_registration = some reg)
    (hr : truthy reg.registrar = some r) :
    registrarSurface E data =
      [{ vector := "Registrar"
         value := r
         description := s!"Domain registered with {r}"
         phishingTactic := "Spoof registrar communications about domain renewal, billing, or security alerts"
         riskSeverity := (registrarRatingSpec ((truthy reg.expiration_date).bind (daysUntilExpiry E)) (regYoung E reg)).1
         riskScore := (registrarRatingSpec ((truthy reg.expiration_date).bind (daysUntilExpiry E)) (regYoung E reg)).2.1
         weight := (registrarRatingSpec ((truthy reg.expiration_date).bind (daysUntilExpiry E)) (regYoung E reg)).2.2 }] := by
  have hmaxA : max (95 : Int) 80 = 95 := by norm_num
  have hmaxB : max (75 : Int) 80 = 80 := by norm_num
  have hmaxC : max (50 : Int) 80 = 80 := by norm_num
  have hmaxD : max (0.95 : Rat) 0.8 = 0.95 := max_eq_left (by norm_num)
  have hmaxE : max (0.85 : Rat) 0.8 = 0.85 := max_eq_left (by norm_num)
  have hmaxF : max (0.7 : Rat) 0.8 = 0.8 := max_eq_right (by norm_num)
  unfold registrarSurface regYoung registrarRatingSpec
  rw [hreg]
  simp only [hr]
  rcases hexp : truthy reg.expiration_date with _ | ed <;>
  rcases hcre : truthy reg.creation_date with _ | cd <;>
  simp only [hexp, hcre, Option.bind] <;>
  (try cases hdu : daysUntilExpiry E ed) <;>
  (try cases hyoung : isYoungDomain E cd) <;>
  (try dsimp only) <;>
  (try split_ifs) <;>
  simp_all [hmaxA, hmaxB, hmaxC, hmaxD, hmaxE, hmaxF]

/-- A clock at epoch with a parser recognising `"E"` (expiry in 10 days)
and `"C"` (created one second from now, so under a year old). -/
def tEnvC9 : TimeEnv :=
  { now := 0
    nowIso := ""
    parseMs := fun s => if s = "E" then some 864000000 else if s = "C" then some (-1000) else none }

/-- Registration data whose domain expires in 10 days *and* is under one
year old. -/
def dataRegistrarYoung : InfrastructureData :=
  { domain := "example.com"
    timestamp := ""
    domain_registration := some
      { registrar := some "GoDaddy"
        expiration_date := some "E"
        creation_date := some "C" } }

/-- C9 counterexample: with expiry in 10 days (< 30) the claim demands
severity critical/95/0.95, but because the domain is also under one year
old the age branch overwrites severity to high — the surface comes back
high/95, not critical. -/
theorem registrar_young_demotes_critical :
    (extractTop5AttackSurfaces tEnvC9 dataRegistrarYoung []).map
      (fun s => (s.riskSeverity, s.riskScore)) = [(Severity.high, 95)] ∧
    Severity.high ≠ Severity.critical := by
  constructor
  · decide
  · decide

/-- Witness for `registrar_surface_heuristic` at `dataRegistrarYoung`. -/
theorem registrar_surface_heuristic_witness :
    (registrarSurface tEnvC9 dataRegistrarYoung).map
      (fun s => (s.vector, s.value, s.riskSeverity, s.riskScore)) =
      [("Registrar", "GoDaddy", Severity.high, 95)] := by
  have h := registrar_surface_heuristic tEnvC9 dataRegistrarYoung
    { registrar := some "GoDaddy", expiration_date := some "E", creation_date := some "C" }
    "GoDaddy" rfl (by decide)
  rw [h]
  decide

/-! ## WHOIS parser lemmas (C7) -/

theorem whoisRoute_registrant_email (key value : String) (r : DomainRegistration) :
    (whoisRoute key value r).registrant_email =
      if containsStr key "registrant" && containsStr key "email" then some value
      else r.registrant_email := rfl

theorem whoisRoute_nameservers (key value : String) (r : DomainRegistration) :
    (whoisRoute key value r).nameservers =
      if containsStr key "name server" || containsStr key "nameserver" then
        r.nameservers ++ [value]
      else r.nameservers := rfl

theorem whoisRoute_status (key value : String) (r : DomainRegistration) :
    (whoisRoute key value r).status =
      if containsStr key "status" then r.status ++ [value] else r.status := rfl

theorem whoisRoute_unmatched {key : String} (value : String) (r : DomainRegistration)
    (h : whoisAnyMatch key = false) : whoisRoute key value r = r := by
  unfold whoisAnyMatch at h
  simp only [Bool.or_eq_false_iff] at h
  obtain ⟨⟨⟨⟨⟨⟨⟨⟨⟨⟨⟨⟨⟨⟨⟨⟨⟨⟨⟨⟨⟨⟨⟨⟨⟨⟨⟨⟨⟨⟨h1, h2⟩, h3⟩, h4⟩, h5⟩, h6⟩, h7⟩, h8⟩,
    h9⟩, h10⟩, h11⟩, h12⟩, h13⟩, h14⟩, h15⟩, h16⟩, h17⟩, h18⟩, h19⟩, h20⟩, h21⟩,
    h22⟩, h23⟩, h24⟩, h25⟩, h26⟩, h27⟩, h28⟩, h29⟩, h30⟩, h31⟩ := h
  unfold whoisRoute
  simp only [h1, h2, h3, h4.1, h4.2, h5.1, h5.2, h6, h7, h8, h9.1, h9.2, h10,
    h11, h12, h13, h14, h15, h16, h17, h18, h19, h20, h21, h22, h23, h24, h25,
    h26, h27.1, h27.2, h28, h29, h30, h31]
  rfl

/-- C7: behaviour of one parser step (`whoisLine`, the loop body of
`parseWhoisResponse`, which is total by construction — a fold of this step).
Blank lines, `%`/`>` comment lines and colon-free lines leave the record
unchanged; otherwise the line is split at the first colon, the key is
trimmed and lowercased, and empty values are dropped; a key containing
both "registrant" and "email" sets `registrant_email`, a key containing
"name server" or "nameserver" appends to `nameservers`, a key containing
"status" appends to `status`, and a key matching no routing rule leaves
the record unchanged (dropped silently). -/
theorem whois_line_spec (r : DomainRegistration) (line : String) :
    ((trimStr line = "" ∨ startsStr (trimStr line) "%" = true ∨
        startsStr (trimStr line) ">" = true) → whoisLine r line = r) ∧
    (splitFirstColon (trimStr line).data = none → whoisLine r line = r) ∧
    (∀ k v,
      ¬(trimStr line = "" ∨ startsStr (trimStr line) "%" = true ∨
          startsStr (trimStr line) ">" = true) →
      splitFirstColon (trimStr line).data = some (k, v) →
      trimStr ⟨v⟩ ≠ "" →
      ((containsStr (lowerStr (trimStr ⟨k⟩)) "registrant" = true →
        containsStr (lowerStr (trimStr ⟨k⟩)) "email" = true →
        (whoisLine r line).registrant_email = some (trimStr ⟨v⟩)) ∧
       ((containsStr (lowerStr (trimStr ⟨k⟩)) "name server" = true ∨
         containsStr (lowerStr (trimStr ⟨k⟩)) "nameserver" = true) →
        (whoisLine r line).nameservers = r.nameservers ++ [trimStr ⟨v⟩]) ∧
       (containsStr (lowerStr (trimStr ⟨k⟩)) "status" = true →
        (whoisLine r line).status = r.status ++ [trimStr ⟨v⟩]) ∧
       (whoisAnyMatch (lowerStr (trimStr ⟨k⟩)) = false → whoisLine r line = r))) := by
  refine ⟨?_, ?_, ?_⟩
  · intro h
    unfold whoisLine
    dsimp only
    split
    · rfl
    · rename_i hc
      simp only [Bool.or_eq_true, decide_eq_true_eq] at hc
      exact absurd (by tauto) hc
  · intro h
    unfold whoisLine
    dsimp only
    split
    · rfl
    · rw [h]
  · intro k v hns hsplit hval
    have hline : whoisLine r line =
        whoisRoute (lowerStr (trimStr ⟨k⟩)) (trimStr ⟨v⟩) r := by
      unfold whoisLine
      dsimp only
      split
      · rename_i hc
        simp only [Bool.or_eq_true, decide_eq_true_eq] at hc
        exact absurd (by tauto) hns
      · rw [hsplit]
        simp only
        rw [if_neg hval]
    refine ⟨?_, ?_, ?_, ?_⟩
    · intro h1 h2
      rw [hline, whoisRoute_registrant_email, if_pos (by rw [h1, h2]; rfl)]
    · intro h
      rw [hline, whoisRoute_nameservers, if_pos ?_]
      rcases h with h | h <;> simp [h]
    · intro h
      rw [hline, whoisRoute_status, if_pos h]
    · intro h
      rw [hline, whoisRoute_unmatched _ _ h]

/-- Witness for `whois_line_spec` on the line `"Registrant Email: a@b.c"`. -/
theorem whois_line_spec_witness :
    (whoisLine {} "Registrant Email: a@b.c").registrant_email = some "a@b.c" :=
  (((whois_line_spec {} "Registrant Email: a@b.c").2.2 ("Registrant Email".data)
      (" a@b.c".data) (by decide) (by decide) (by decide)).1
    (by decide) (by decide)).trans (by decide)

/-! ## Aggregator lemmas and the handler-level claims -/

theorem POSTHandler_ok {domain : String} (env : Env) (h : domain ≠ "") :
    POSTHandler (some domain) env =
      .ok (aggResult env (normalizeDomain domain))
        (calculateInfrastructureRisks env.time (aggResult env (normalizeDomain domain)))
        (extractTop5AttackSurfaces env.time (aggResult env (normalizeDomain domain))
          (calculateInfrastructureRisks env.time (aggResult env (normalizeDomain domain)))) := by
  unfold POSTHandler
  dsimp only
  rw [if_neg h]

/-- The warnings list is produced solely by the WHOIS-empty check. -/
theorem aggResult_warnings (env : Env) (d : String) :
    ((aggResult env d).metadata.map Metadata.warnings).getD [] =
      if (getWhoisInfo env.whoisRaw).isEmptyRec then ["WHOIS data unavailable"] else [] := rfl

theorem aggResult_dns_none (env : Env) (d : String)
    (h : (resolveDNS env.dnsOutcomes).a_records = []) : (aggResult env d).dns = none := by
  unfold aggResult
  dsimp only
  rw [h]
  simp

theorem aggResult_hosting_none (env : Env) (d : String)
    (h : (resolveDNS env.dnsOutcomes).a_records = []) : (aggResult env d).hosting = none := by
  unfold aggResult
  dsimp only
  rw [h]

/-- Every external lookup failing / timing out, as outcome data. -/
def allLookupsFail (env : Env) : Prop :=
  env.dnsOutcomes.ns = none ∧ env.dnsOutcomes.a = none ∧ env.dnsOutcomes.aaaa = none ∧
  env.dnsOutcomes.mx = none ∧ env.dnsOutcomes.txt = none ∧ env.dnsOutcomes.soa = none ∧
  env.dnsOutcomes.dmarc = none ∧ env.whoisRaw = none ∧ env.http = none

/-- C1 (amended): for every request whose body contains a *non-empty*
string `domain`, even when every external lookup fails, the handler
returns the success shape with non-empty `metadata.warnings`.  (The empty
string is a string too, but is falsy in the source's validation check and
is rejected with a client error — see the counterexample.) -/
theorem total_failure_still_ok (env : Env) (domain : String) (hd : domain ≠ "")
    (hfail : allLookupsFail env) :
    (POSTHandler (some domain) env).isOk = true ∧
    (POSTHandler (some domain) env).warningsOf ≠ [] := by
  obtain ⟨-, -, -, -, -, -, -, h8, -⟩ := hfail
  rw [POSTHandler_ok env hd]
  refine ⟨rfl, ?_⟩
  show ((aggResult env (normalizeDomain domain)).metadata.map Metadata.warnings).getD [] ≠ []
  rw [aggResult_warnings, h8]
  decide

/-- The all-fail environment at the epoch clock. -/
def envAllFail : Env :=
  { time := tEnv0, dnsOutcomes := {}, whoisRaw := none, http := none, ipLookup := fun _ => {} }

/-- C1 counterexample: `""` is a string `domain`, every lookup fails, and
the handler returns the 400-style error response, not the success shape. -/
theorem empty_domain_string_rejected :
    allLookupsFail envAllFail ∧
    POSTHandler (some "") envAllFail = ApiResponse.clientError "Domain is required" := by
  exact ⟨⟨rfl, rfl, rfl, rfl, rfl, rfl, rfl, rfl, rfl⟩, rfl⟩

/-- Witness for `total_failure_still_ok` at `envAllFail`. -/
theorem total_failure_still_ok_witness :
    (POSTHandler (some "example.com") envAllFail).isOk = true ∧
    (POSTHandler (some "example.com") envAllFail).warningsOf ≠ [] :=
  total_failure_still_ok envAllFail "example.com" (by decide)
    ⟨rfl, rfl, rfl, rfl, rfl, rfl, rfl, rfl, rfl⟩

/-- C6: with zero resolved A records the returned `InfrastructureData`
has no hosting section, and the IP-reputation lookup is never consulted:
the whole response is invariant under the IP-lookup oracle. -/
theorem no_a_records_no_hosting (env : Env) (domain : String) (hd : domain ≠ "")
    (h : (resolveDNS env.dnsOutcomes).a_records = []) :
    (POSTHandler (some domain) env).hostingOf = none ∧
    ∀ f : String → IpWhois,
      POSTHandler (some domain) { env with ipLookup := f } = POSTHandler (some domain) env := by
  constructor
  · rw [POSTHandler_ok env hd]
    show (aggResult env (normalizeDomain domain)).hosting = none
    exact aggResult_hosting_none env _ h
  · intro f
    have hagg : aggResult { env with ipLookup := f } (normalizeDomain domain) =
        aggResult env (normalizeDomain domain) := by
      unfold aggResult
      dsimp only
      rw [h]
    rw [POSTHandler_ok _ hd, POSTHandler_ok env hd]
    rw [show ({ env with ipLookup := f } : Env).time = env.time from rfl, hagg]

/-- Witness for `no_a_records_no_hosting` at `envAllFail`. -/
theorem no_a_records_no_hosting_witness :
    (POSTHandler (some "example.com") envAllFail).hostingOf = none ∧
    POSTHandler (some "example.com")
        { envAllFail with ipLookup := fun _ => { asn := some "AS1" } } =
      POSTHandler (some "example.com") envAllFail :=
  ⟨(no_a_records_no_hosting envAllFail "example.com" (by decide) rfl).1,
   (no_a_records_no_hosting envAllFail "example.com" (by decide) rfl).2
     (fun _ => { asn := some "AS1" })⟩

/-- C8 (amended): `metadata.warnings` is exactly the WHOIS note when the
WHOIS lookup produced nothing, and empty otherwise — the DNS, HTTP and
IP adapters returning nothing contribute no warning. -/
theorem warnings_only_whois (env : Env) (domain : String) (hd : domain ≠ "") :
    (POSTHandler (some domain) env).warningsOf =
      if (getWhoisInfo env.whoisRaw).isEmptyRec then ["WHOIS data unavailable"] else [] := by
  rw [POSTHandler_ok env hd]
  exact aggResult_warnings env (normalizeDomain domain)

/-- An environment where only the WHOIS lookup succeeds. -/
def envWhoisOnly : Env :=
  { time := tEnv0, dnsOutcomes := {}, whoisRaw := some "Registrar: GoDaddy\n", http := none,
    ipLookup := fun _ => {} }

/-- C8 counterexample: every DNS query failed (the `dns` section is
absent) and yet `metadata.warnings` is empty — no warning is recorded for
the DNS adapter (nor for HTTP/IP); only WHOIS ever warns. -/
theorem dns_failure_no_warning :
    (POSTHandler (some "example.com") envWhoisOnly).dnsOf = none ∧
    (POSTHandler (some "example.com") envWhoisOnly).warningsOf = [] := by
  constructor
  · decide
  · decide

/-- Witness for `warnings_only_whois` at `envWhoisOnly`. -/
theorem warnings_only_whois_witness :
    (POSTHandler (some "example.com") envWhoisOnly).warningsOf =
      if (getWhoisInfo envWhoisOnly.whoisRaw).isEmptyRec then ["WHOIS data unavailable"]
      else [] :=
  warnings_only_whois envWhoisOnly "example.com" (by decide)

theorem regRisk_category (E : TimeEnv) (reg : DomainRegistration) :
    (regRisk E reg).category = "Domain Registration" := rfl

theorem emailRisk_category (email : EmailSection) :
    (emailRisk email).category = "Email Security" := rfl

theorem hostingRisk_category (hosting : HostingSection) :
    (hostingRisk hosting).category = "Hosting Infrastructure" := rfl

theorem webRisk_category (web : WebServer) :
    (webRisk web).category = "Web Server" := rfl

/-- Without a `dns` section no "DNS Security" entry is ever produced. -/
theorem dns_category_requires_dns (E : TimeEnv) (data : InfrastructureData)
    (h : data.dns = none) :
    ∀ r ∈ calculateInfrastructureRisks E data, r.category ≠ "DNS Security" := by
  intro r hr
  unfold calculateInfrastructureRisks at hr
  rw [h] at hr
  simp only [List.mem_append] at hr
  rcases hr with ((((h1 | h1) | h1) | h1) | h1)
  · split at h1
    · rw [List.mem_singleton] at h1
      subst h1
      rw [regRisk_category]
      decide
    · exact absurd h1 (List.not_mem_nil r)
  · exact absurd h1 (List.not_mem_nil r)
  · split at h1
    · rw [List.mem_singleton] at h1
      subst h1
      rw [emailRisk_category]
      decide
    · exact absurd h1 (List.not_mem_nil r)
  · split at h1
    · rw [List.mem_singleton] at h1
      subst h1
      rw [hostingRisk_category]
      decide
    · exact absurd h1 (List.not_mem_nil r)
  · split at h1
    · rw [List.mem_singleton] at h1
      subst h1
      rw [webRisk_category]
      decide
    · exact absurd h1 (List.not_mem_nil r)

/-- C10: when DNS yields zero A records the entire `dns` section is
omitted (whatever the NS/MX/TXT/SOA queries returned) and no
"DNS Security" risk entry exists; and in *every* response the `dns`
section, when present, carries a non-empty `a_records` list — so the
"No A records found" +10 rule's guard is never satisfied end-to-end. -/
theorem zero_a_records_omits_dns_section (env : Env) (domain : String) (hd : domain ≠ "") :
    ((resolveDNS env.dnsOutcomes).a_records = [] →
      (POSTHandler (some domain) env).dnsOf = none ∧
      ∀ r ∈ (POSTHandler (some domain) env).riskScoresOf, r.category ≠ "DNS Security") ∧
    (∀ sec, (POSTHandler (some domain) env).dnsOf = some sec →
      ∃ ip rest, sec.a_records = some (ip :: rest)) := by
  constructor
  · intro h
    rw [POSTHandler_ok env hd]
    constructor
    · exact aggResult_dns_none env _ h
    · exact dns_category_requires_dns env.time _ (aggResult_dns_none env _ h)
  · intro sec hsec
    rw [POSTHandler_ok env hd] at hsec
    dsimp only [ApiResponse.dnsOf] at hsec
    unfold aggResult at hsec
    dsimp only at hsec
    split at hsec
    · rename_i hlen
      rw [Option.some_inj] at hsec
      subst hsec
      dsimp only
      rcases hl : (resolveDNS env.dnsOutcomes).a_records with _ | ⟨ip, rest⟩
      · rw [hl] at hlen
        simp at hlen
      · exact ⟨ip, rest, rfl⟩
    · exact absurd hsec (by simp)

/-- Witness for `zero_a_records_omits_dns_section` at `envAllFail`. -/
theorem zero_a_records_omits_dns_section_witness :
    (POSTHandler (some "example.com") envAllFail).dnsOf = none :=
  ((zero_a_records_omits_dns_section envAllFail "example.com" (by decide)).1 rfl).1

/-- Witness for `normalize_domain_lower_no_path` at `"Ab/C"`
(which normalizes to `"ab"`). -/
theorem normalize_domain_lower_no_path_witness :
    ¬(65 ≤ ('a' : Char).toNat ∧ ('a' : Char).toNat ≤ 90) ∧ ('a' : Char) ≠ '/' :=
  ⟨(normalize_domain_lower_no_path "Ab/C").1 'a' (by decide),
   (normalize_domain_lower_no_path "Ab/C").2.1 'a' (by decide)⟩

/-- Email-only data with MX-derived provider and neither SPF nor DMARC. -/
def dataEmailOnly : InfrastructureData :=
  { domain := "example.com"
    timestamp := ""
    email := some
      { mx_provider := some "Google Workspace"
        spf_record := none
        dmarc_record := none
        mx_details := some [{ priority := 10, exchange := "aspmx.l.google.com",
                              provider := "Google Workspace" }] } }

/-- Witness for `email_no_spf_dmarc_critical` at `dataEmailOnly`. -/
theorem email_no_spf_dmarc_critical_witness :
    (∃ r ∈ calculateInfrastructureRisks tEnv0 dataEmailOnly,
       r.category = "Email Security" ∧ 45 ≤ r.score) ∧
    (∃ s ∈ extractTop5AttackSurfaces tEnv0 dataEmailOnly [],
       s.vector = "Email Provider" ∧ s.riskSeverity = Severity.critical ∧
       s.riskScore = 90) :=
  email_no_spf_dmarc_critical tEnv0 dataEmailOnly [] _ "Google Workspace"
    rfl rfl rfl rfl (by decide)
